import Mathlib

/-!
Shallow embedding of `src/dynamics/integration_parameters.rs`.

Scalars (`f32` in the source) are modelled as rationals and `usize` as `Nat`.
A Rust function that can panic (here only `set_dt`, through its `assert!`)
is embedded as an `Option`-valued function, `none` standing for the panic;
the remaining functions contain no panicking construct and are embedded as
total functions.
-/

/-- The `IntegrationParameters` struct, field for field. -/
structure IntegrationParameters where
  dt : ℚ
  return_after_ccd_substep : Bool
  erp : ℚ
  joint_erp : ℚ
  warmstart_coeff : ℚ
  restitution_velocity_threshold : ℚ
  allowed_linear_error : ℚ
  prediction_distance : ℚ
  allowed_angular_error : ℚ
  max_linear_correction : ℚ
  max_angular_correction : ℚ
  max_stabilization_multiplier : ℚ
  max_velocity_iterations : Nat
  max_position_iterations : Nat
  min_island_size : Nat
  max_ccd_position_iterations : Nat
  max_ccd_substeps : Nat
  multiple_ccd_substep_sensor_events_enabled : Bool
  ccd_on_penetration_enabled : Bool
  deriving DecidableEq, Repr

/-- `IntegrationParameters::new`: stores every argument in its field and
forces `min_island_size` to `128` (it is not an argument). Argument order
follows the source. -/
def IntegrationParameters.new
    (dt erp joint_erp warmstart_coeff restitution_velocity_threshold
      allowed_linear_error allowed_angular_error max_linear_correction
      max_angular_correction prediction_distance
      max_stabilization_multiplier : ℚ)
    (max_velocity_iterations max_position_iterations
      max_ccd_position_iterations max_ccd_substeps : Nat)
    (return_after_ccd_substep multiple_ccd_substep_sensor_events_enabled
      ccd_on_penetration_enabled : Bool) : IntegrationParameters :=
  { dt := dt
    erp := erp
    joint_erp := joint_erp
    warmstart_coeff := warmstart_coeff
    restitution_velocity_threshold := restitution_velocity_threshold
    allowed_linear_error := allowed_linear_error
    allowed_angular_error := allowed_angular_error
    max_linear_correction := max_linear_correction
    max_angular_correction := max_angular_correction
    prediction_distance := prediction_distance
    max_stabilization_multiplier := max_stabilization_multiplier
    max_velocity_iterations := max_velocity_iterations
    max_position_iterations := max_position_iterations
    min_island_size := 128
    max_ccd_position_iterations := max_ccd_position_iterations
    max_ccd_substeps := max_ccd_substeps
    return_after_ccd_substep := return_after_ccd_substep
    multiple_ccd_substep_sensor_events_enabled :=
      multiple_ccd_substep_sensor_events_enabled
    ccd_on_penetration_enabled := ccd_on_penetration_enabled }

/-- `IntegrationParameters::inv_dt`: `0` when `dt == 0`, else `1 / dt`. -/
def IntegrationParameters.inv_dt (p : IntegrationParameters) : ℚ :=
  if p.dt = 0 then 0 else 1 / p.dt

/-- `IntegrationParameters::set_dt`: asserts `dt >= 0` (panic, i.e. `none`,
otherwise) and stores `dt`. -/
def IntegrationParameters.set_dt (p : IntegrationParameters) (dt : ℚ) :
    Option IntegrationParameters :=
  if 0 ≤ dt then some { p with dt := dt } else none

/-- `IntegrationParameters::set_inv_dt`: stores `dt = 0` when the argument is
`0`, else `dt = 1 / inv_dt`. The source performs no sign check. -/
def IntegrationParameters.set_inv_dt (p : IntegrationParameters)
    (inv_dt : ℚ) : IntegrationParameters :=
  if inv_dt = 0 then { p with dt := 0 } else { p with dt := 1 / inv_dt }

/-- `Default::default` for `IntegrationParameters`, literal for literal. -/
def IntegrationParameters.default : IntegrationParameters :=
  { dt := 1 / 60
    return_after_ccd_substep := false
    erp := 0.2
    joint_erp := 0.2
    warmstart_coeff := 1.0
    restitution_velocity_threshold := 1.0
    allowed_linear_error := 0.005
    prediction_distance := 0.002
    allowed_angular_error := 0.001
    max_linear_correction := 0.2
    max_angular_correction := 0.2
    max_stabilization_multiplier := 0.2
    max_velocity_iterations := 4
    max_position_iterations := 1
    min_island_size := 128
    max_ccd_position_iterations := 10
    max_ccd_substeps := 1
    multiple_ccd_substep_sensor_events_enabled := false
    ccd_on_penetration_enabled := false }

/-- One call of the public interface of `IntegrationParameters`. -/
inductive Call where
  | callDefault : Call
  | callNew
      (dt erp joint_erp warmstart_coeff restitution_velocity_threshold
        allowed_linear_error allowed_angular_error max_linear_correction
        max_angular_correction prediction_distance
        max_stabilization_multiplier : ℚ)
      (max_velocity_iterations max_position_iterations
        max_ccd_position_iterations max_ccd_substeps : Nat)
      (return_after_ccd_substep multiple_ccd_substep_sensor_events_enabled
        ccd_on_penetration_enabled : Bool) : Call
  | callDt : Call
  | callInvDt : Call
  | callSetDt (x : ℚ) : Call
  | callSetInvDt (f : ℚ) : Call

/-- What a call returns: a record (constructors and setters, the setters
returning the mutated receiver) or a scalar (getters). -/
inductive Ret where
  | params (p : IntegrationParameters) : Ret
  | scalar (x : ℚ) : Ret

/-- Runs one interface call on a receiver; `none` is a panic. Each branch is
the corresponding source function. -/
def exec (p : IntegrationParameters) : Call → Option Ret
  | .callDefault => some (.params IntegrationParameters.default)
  | .callNew a1 a2 a3 a4 a5 a6 a7 a8 a9 a10 a11 n1 n2 n3 n4 b1 b2 b3 =>
      some (.params (IntegrationParameters.new a1 a2 a3 a4 a5 a6 a7 a8 a9
        a10 a11 n1 n2 n3 n4 b1 b2 b3))
  | .callDt => some (.scalar p.dt)
  | .callInvDt => some (.scalar p.inv_dt)
  | .callSetDt x => (p.set_dt x).map .params
  | .callSetInvDt f => some (.params (p.set_inv_dt f))

/-- `set_inv_dt` written as a single record update. -/
lemma set_inv_dt_as_update (p : IntegrationParameters) (f : ℚ) :
    p.set_inv_dt f = { p with dt := if f = 0 then 0 else 1 / f } := by
  unfold IntegrationParameters.set_inv_dt
  split <;> simp_all

/-- Claim C1: `inv_dt()` returns `0` when `dt = 0` and `1 / dt` otherwise;
being a total function of the embedding it never traps. -/
theorem inv_dt_spec (p : IntegrationParameters) :
    (p.dt = 0 → p.inv_dt = 0) ∧ (p.dt ≠ 0 → p.inv_dt = 1 / p.dt) := by
  unfold IntegrationParameters.inv_dt
  constructor <;> intro h <;> simp [h]

/-- Claim C2: `set_dt x` panics exactly when `x < 0`; for `0 ≤ x` it stores
`x`, and reading `dt` afterwards returns exactly `x`. -/
theorem set_dt_spec (p : IntegrationParameters) (x : ℚ) :
    (p.set_dt x = none ↔ x < 0) ∧
    (0 ≤ x → p.set_dt x = some { p with dt := x }) ∧
    (0 ≤ x → (p.set_dt x).map IntegrationParameters.dt = some x) := by
  unfold IntegrationParameters.set_dt
  refine ⟨?_, ?_, ?_⟩
  · split <;> simp_all
  · intro h; simp [h]
  · intro h; simp [h]

/-- Claim C3, counterexample: from the default instance (whose `dt` is
non-negative), `set_inv_dt (-2)` returns without fatal error yet leaves a
negative `dt`, and `new` called with `dt = -1` does the same. -/
theorem dt_invariant_cex :
    0 ≤ IntegrationParameters.default.dt ∧
    (IntegrationParameters.default.set_inv_dt (-2)).dt < 0 ∧
    (IntegrationParameters.new (-1) 0.2 0.2 1 1 0.005 0.001 0.2 0.2 0.002
      0.2 4 1 10 1 false false false).dt < 0 := by
  refine ⟨?_, ?_, ?_⟩ <;>
    norm_num [IntegrationParameters.default, IntegrationParameters.set_inv_dt,
      IntegrationParameters.new]

/-- Claim C3 as amended: `default` and every successful `set_dt` leave
`dt ≥ 0` unconditionally; `set_inv_dt` leaves `dt ≥ 0` provided its argument
is non-negative; `new` leaves `dt ≥ 0` provided its `dt` argument is
non-negative. -/
theorem dt_invariant_amended (p : IntegrationParameters) :
    0 ≤ IntegrationParameters.default.dt ∧
    (∀ x q, p.set_dt x = some q → 0 ≤ q.dt) ∧
    (∀ f, 0 ≤ f → 0 ≤ (p.set_inv_dt f).dt) ∧
    (∀ (a1 a2 a3 a4 a5 a6 a7 a8 a9 a10 a11 : ℚ) (n1 n2 n3 n4 : Nat)
      (b1 b2 b3 : Bool), 0 ≤ a1 →
      0 ≤ (IntegrationParameters.new a1 a2 a3 a4 a5 a6 a7 a8 a9 a10 a11
        n1 n2 n3 n4 b1 b2 b3).dt) := by
  refine ⟨by norm_num [IntegrationParameters.default], ?_, ?_, ?_⟩
  · intro x q h
    unfold IntegrationParameters.set_dt at h
    split at h
    · cases h; simpa using by assumption
    · cases h
  · intro f hf
    rw [set_inv_dt_as_update]
    rcases eq_or_ne f 0 with h0 | h0
    · simp [h0]
    · have hpos : 0 < f := lt_of_le_of_ne hf (Ne.symm h0)
      simp only [h0, if_neg]
      simpa using (one_div_pos.mpr hpos).le
  · intro a1 a2 a3 a4 a5 a6 a7 a8 a9 a10 a11 n1 n2 n3 n4 b1 b2 b3 h
    simpa [IntegrationParameters.new] using h

/-- Claim C4: the code at the failing input. `set_inv_dt (-1)` on the default
instance returns without any fatal error and silently stores `dt = -1`,
where the claim requires a fatal contract error for every negative
argument. -/
theorem set_inv_dt_negative_eval :
    (IntegrationParameters.default.set_inv_dt (-1)).dt = -1 ∧
    (IntegrationParameters.default.set_inv_dt (-1)).dt < 0 := by
  norm_num [IntegrationParameters.default, IntegrationParameters.set_inv_dt]

/-- Claim C5: `new` stores each of its eighteen arguments unchanged in the
corresponding field and forces `min_island_size = 128`. -/
theorem new_fields
    (a1 a2 a3 a4 a5 a6 a7 a8 a9 a10 a11 : ℚ) (n1 n2 n3 n4 : Nat)
    (b1 b2 b3 : Bool) :
    (IntegrationParameters.new a1 a2 a3 a4 a5 a6 a7 a8 a9 a10 a11
      n1 n2 n3 n4 b1 b2 b3) =
    { dt := a1, erp := a2, joint_erp := a3, warmstart_coeff := a4,
      restitution_velocity_threshold := a5, allowed_linear_error := a6,
      allowed_angular_error := a7, max_linear_correction := a8,
      max_angular_correction := a9, prediction_distance := a10,
      max_stabilization_multiplier := a11, max_velocity_iterations := n1,
      max_position_iterations := n2, min_island_size := 128,
      max_ccd_position_iterations := n3, max_ccd_substeps := n4,
      return_after_ccd_substep := b1,
      multiple_ccd_substep_sensor_events_enabled := b2,
      ccd_on_penetration_enabled := b3 } := rfl

/-- Claim C6: `default()` produces exactly the literal values of the spec's
table. -/
theorem default_values :
    IntegrationParameters.default.dt = 1 / 60 ∧
    IntegrationParameters.default.erp = 0.2 ∧
    IntegrationParameters.default.joint_erp = 0.2 ∧
    IntegrationParameters.default.warmstart_coeff = 1 ∧
    IntegrationParameters.default.restitution_velocity_threshold = 1 ∧
    IntegrationParameters.default.allowed_linear_error = 0.005 ∧
    IntegrationParameters.default.prediction_distance = 0.002 ∧
    IntegrationParameters.default.allowed_angular_error = 0.001 ∧
    IntegrationParameters.default.max_linear_correction = 0.2 ∧
    IntegrationParameters.default.max_angular_correction = 0.2 ∧
    IntegrationParameters.default.max_stabilization_multiplier = 0.2 ∧
    IntegrationParameters.default.max_velocity_iterations = 4 ∧
    IntegrationParameters.default.max_position_iterations = 1 ∧
    IntegrationParameters.default.min_island_size = 128 ∧
    IntegrationParameters.default.max_ccd_position_iterations = 10 ∧
    IntegrationParameters.default.max_ccd_substeps = 1 ∧
    IntegrationParameters.default.return_after_ccd_substep = false ∧
    IntegrationParameters.default.multiple_ccd_substep_sensor_events_enabled
      = false ∧
    IntegrationParameters.default.ccd_on_penetration_enabled = false := by
  norm_num [IntegrationParameters.default]

/-- Claim C7: `set_inv_dt f` stores `dt = 0` exactly when `f = 0`, and
`dt = 1 / f` when `f ≠ 0`. -/
theorem set_inv_dt_spec (p : IntegrationParameters) (f : ℚ) :
    ((p.set_inv_dt f).dt = 0 ↔ f = 0) ∧
    (f ≠ 0 → (p.set_inv_dt f).dt = 1 / f) := by
  rw [set_inv_dt_as_update]
  constructor
  · split <;> simp_all
  · intro h; simp [h]

/-- Claim C8: after `set_inv_dt f` with `0 ≤ f`, running `set_inv_dt` again
on the value `inv_dt()` returns leaves the record unchanged (exactly, the
scalars being exact here). -/
theorem set_inv_dt_roundtrip (p : IntegrationParameters) (f : ℚ)
    (h : 0 ≤ f) :
    (p.set_inv_dt f).set_inv_dt ((p.set_inv_dt f).inv_dt) =
      p.set_inv_dt f := by
  clear h
  rcases eq_or_ne f 0 with hf | hf
  · subst hf
    simp [set_inv_dt_as_update, IntegrationParameters.inv_dt]
  · have hinv : (p.set_inv_dt f).inv_dt = f := by
      rw [set_inv_dt_as_update]
      unfold IntegrationParameters.inv_dt
      simp [hf, one_div_one_div]
    rw [hinv, set_inv_dt_as_update, set_inv_dt_as_update]

/-- Witness for claim C8 at `p = default`, `f = 3`. -/
theorem set_inv_dt_roundtrip_witness :
    (IntegrationParameters.default.set_inv_dt 3).set_inv_dt
        ((IntegrationParameters.default.set_inv_dt 3).inv_dt) =
      IntegrationParameters.default.set_inv_dt 3 :=
  set_inv_dt_roundtrip IntegrationParameters.default 3 (by norm_num)

/-- Claim C9: across the whole interface, a call panics exactly when it is
`set_dt` with a negative argument; `default`, `new` (any arguments),
`dt`, `inv_dt` and `set_inv_dt` (any argument) never do. -/
theorem only_negative_set_dt_fatal (p : IntegrationParameters) (c : Call) :
    exec p c = none ↔ ∃ x, c = Call.callSetDt x ∧ x < 0 := by
  cases c <;> simp [exec, IntegrationParameters.set_dt]

/-- Claim C10: a successful `set_dt` and any `set_inv_dt` change only the
`dt` field; all eighteen other fields are unchanged. -/
theorem setters_frame (p : IntegrationParameters) :
    (∀ x q, p.set_dt x = some q →
      q.return_after_ccd_substep = p.return_after_ccd_substep ∧
      q.erp = p.erp ∧ q.joint_erp = p.joint_erp ∧
      q.warmstart_coeff = p.warmstart_coeff ∧
      q.restitution_velocity_threshold =
        p.restitution_velocity_threshold ∧
      q.allowed_linear_error = p.allowed_linear_error ∧
      q.prediction_distance = p.prediction_distance ∧
      q.allowed_angular_error = p.allowed_angular_error ∧
      q.max_linear_correction = p.max_linear_correction ∧
      q.max_angular_correction = p.max_angular_correction ∧
      q.max_stabilization_multiplier = p.max_stabilization_multiplier ∧
      q.max_velocity_iterations = p.max_velocity_iterations ∧
      q.max_position_iterations = p.max_position_iterations ∧
      q.min_island_size = p.min_island_size ∧
      q.max_ccd_position_iterations = p.max_ccd_position_iterations ∧
      q.max_ccd_substeps = p.max_ccd_substeps ∧
      q.multiple_ccd_substep_sensor_events_enabled =
        p.multiple_ccd_substep_sensor_events_enabled ∧
      q.ccd_on_penetration_enabled = p.ccd_on_penetration_enabled) ∧
    (∀ f,
      (p.set_inv_dt f).return_after_ccd_substep =
        p.return_after_ccd_substep ∧
      (p.set_inv_dt f).erp = p.erp ∧
      (p.set_inv_dt f).joint_erp = p.joint_erp ∧
      (p.set_inv_dt f).warmstart_coeff = p.warmstart_coeff ∧
      (p.set_inv_dt f).restitution_velocity_threshold =
        p.restitution_velocity_threshold ∧
      (p.set_inv_dt f).allowed_linear_error = p.allowed_linear_error ∧
      (p.set_inv_dt f).prediction_distance = p.prediction_distance ∧
      (p.set_inv_dt f).allowed_angular_error = p.allowed_angular_error ∧
      (p.set_inv_dt f).max_linear_correction = p.max_linear_correction ∧
      (p.set_inv_dt f).max_angular_correction = p.max_angular_correction ∧
      (p.set_inv_dt f).max_stabilization_multiplier =
        p.max_stabilization_multiplier ∧
      (p.set_inv_dt f).max_velocity_iterations =
        p.max_velocity_iterations ∧
      (p.set_inv_dt f).max_position_iterations =
        p.max_position_iterations ∧
      (p.set_inv_dt f).min_island_size = p.min_island_size ∧
      (p.set_inv_dt f).max_ccd_position_iterations =
        p.max_ccd_position_iterations ∧
      (p.set_inv_dt f).max_ccd_substeps = p.max_ccd_substeps ∧
      (p.set_inv_dt f).multiple_ccd_substep_sensor_events_enabled =
        p.multiple_ccd_substep_sensor_events_enabled ∧
      (p.set_inv_dt f).ccd_on_penetration_enabled =
        p.ccd_on_penetration_enabled) := by
  constructor
  · intro x q h
    unfold IntegrationParameters.set_dt at h
    split at h
    · cases h
      exact ⟨rfl, rfl, rfl, rfl, rfl, rfl, rfl, rfl, rfl, rfl, rfl, rfl,
        rfl, rfl, rfl, rfl, rfl, rfl⟩
    · cases h
  · intro f
    rw [set_inv_dt_as_update]
    exact ⟨rfl, rfl, rfl, rfl, rfl, rfl, rfl, rfl, rfl, rfl, rfl, rfl,
      rfl, rfl, rfl, rfl, rfl, rfl⟩
